import Mathlib

/-!
Shallow embedding of the TTControl firmware (turntable motor controller) and
verification of spec claims about it.  Machine floats are modelled as exact
rationals, unsigned machine integers as naturals reduced modulo 2^w at the
operations where the source wraps.
-/

namespace TTControl

/-- `MotorState` from types.h. -/
inductive MotorState
  | standby
  | stopped
  | starting
  | running
  | stopping
  deriving DecidableEq, Repr

/-- `FilterType` from types.h. -/
inductive FilterType
  | none
  | iir
  | fir
  deriving DecidableEq, Repr

/-- `FirProfile` from types.h. -/
inductive FirProfile
  | gentle
  | medium
  | aggressive
  deriving DecidableEq, Repr

/-- `SpeedSettings` from types.h; C floats become rationals, uint8 fields
become naturals. -/
structure SpeedSettings where
  frequency : ℚ
  minFrequency : ℚ
  maxFrequency : ℚ
  phaseOffset : Fin 4 → ℚ
  softStartDuration : ℚ
  reducedAmplitude : ℕ
  amplitudeDelay : ℕ
  startupKick : ℕ
  startupKickDuration : ℕ
  startupKickRampDuration : ℚ
  filterType : FilterType
  iirAlpha : ℚ
  firProfile : FirProfile

/-- `GlobalSettings` from types.h.  `currentSpeed` is the underlying enum
integer (validate clamps out-of-range values). -/
structure GlobalSettings where
  schemaVersion : ℕ
  phaseMode : ℕ
  maxAmplitude : ℕ
  softStartCurve : ℕ
  smoothSwitching : Bool
  switchRampDuration : ℕ
  brakeMode : ℕ
  brakeDuration : ℚ
  brakePulseGap : ℚ
  brakeStartFreq : ℚ
  brakeStopFreq : ℚ
  relayActiveHigh : Bool
  muteRelayLinkStandby : Bool
  muteRelayLinkStartStop : Bool
  powerOnRelayDelay : ℕ
  displayBrightness : ℕ
  displaySleepDelay : ℕ
  screensaverEnabled : Bool
  autoDimDelay : ℕ
  showRuntime : Bool
  errorDisplayEnabled : Bool
  errorDisplayDuration : ℕ
  autoStandbyDelay : ℕ
  autoStart : Bool
  autoBoot : Bool
  pitchResetOnStop : Bool
  speeds : Fin 3 → SpeedSettings
  presetNames : Fin 5 → String
  totalRuntime : ℕ
  reverseEncoder : Bool
  pitchStepSize : ℚ
  rampType : ℕ
  screensaverMode : ℕ
  enable78rpm : Bool
  freqDependentAmplitude : ℕ
  bootSpeed : ℕ
  currentSpeed : ℕ

/-- The loop `while (x >= 360.0) x -= 360.0;` from Settings::validate. -/
def wrapHi (x : ℚ) : ℚ :=
  if h : 360 ≤ x then wrapHi (x - 360) else x
termination_by (⌈x / 360⌉).toNat
decreasing_by
  have h1 : ((x - 360) / 360 : ℚ) = x / 360 - (1 : ℤ) := by push_cast; ring
  have h2 : ⌈x / 360 - ((1 : ℤ) : ℚ)⌉ = ⌈x / 360⌉ - 1 := Int.ceil_sub_int (x / 360) 1
  have h3 : (0 : ℤ) < ⌈x / 360⌉ :=
    Int.ceil_pos.mpr (div_pos (by linarith) (by norm_num))
  rw [h1, h2]
  omega

/-- The loop `while (x < 0.0) x += 360.0;` from Settings::validate. -/
def wrapLo (x : ℚ) : ℚ :=
  if h : x < 0 then wrapLo (x + 360) else x
termination_by (⌈-x / 360⌉).toNat
decreasing_by
  have h1 : (-(x + 360) / 360 : ℚ) = -x / 360 - (1 : ℤ) := by push_cast; ring
  have h2 : ⌈-x / 360 - ((1 : ℤ) : ℚ)⌉ = ⌈-x / 360⌉ - 1 := Int.ceil_sub_int (-x / 360) 1
  have h3 : (0 : ℤ) < ⌈-x / 360⌉ :=
    Int.ceil_pos.mpr (div_pos (by linarith) (by norm_num))
  rw [h1, h2]
  omega

/-- Phase-offset normalisation in Settings::validate: first reduce values
at or above 360, then raise negative values. -/
def wrapPhase (x : ℚ) : ℚ := wrapLo (wrapHi x)

theorem wrapHi_lt (x : ℚ) : wrapHi x < 360 := by
  induction x using wrapHi.induct with
  | case1 x h ih => rw [wrapHi]; simpa [h] using ih
  | case2 x h => rw [wrapHi]; simp [h]; linarith [not_le.mp h]

theorem wrapLo_nonneg (x : ℚ) : 0 ≤ wrapLo x := by
  induction x using wrapLo.induct with
  | case1 x h ih => rw [wrapLo]; simpa [h] using ih
  | case2 x h => rw [wrapLo]; simp [h]; linarith [not_lt.mp h]

theorem wrapLo_lt (x : ℚ) : x < 360 → wrapLo x < 360 := by
  induction x using wrapLo.induct with
  | case1 x h ih =>
      intro _
      rw [wrapLo]
      simp only [h, dif_pos]
      exact ih (by linarith)
  | case2 x h =>
      intro hx
      rw [wrapLo]
      simpa [h] using hx

theorem wrapPhase_mem (x : ℚ) : 0 ≤ wrapPhase x ∧ wrapPhase x < 360 :=
  ⟨wrapLo_nonneg _, wrapLo_lt _ (wrapHi_lt x)⟩

/-- Statement `if (min > max) swap(min, max)` of Settings::validate. -/
def swapMinMax (s : SpeedSettings) : SpeedSettings :=
  if s.maxFrequency < s.minFrequency then
    { s with minFrequency := s.maxFrequency, maxFrequency := s.minFrequency }
  else s

/-- Statement `if (frequency < min) frequency = min` of Settings::validate. -/
def clampFreqLow (s : SpeedSettings) : SpeedSettings :=
  if s.frequency < s.minFrequency then { s with frequency := s.minFrequency } else s

/-- Statement `if (frequency > max) frequency = max` of Settings::validate. -/
def clampFreqHigh (s : SpeedSettings) : SpeedSettings :=
  if s.maxFrequency < s.frequency then { s with frequency := s.maxFrequency } else s

/-- Statement `if (softStartDuration < 0) softStartDuration = 0`. -/
def clampSoftStart (s : SpeedSettings) : SpeedSettings :=
  if s.softStartDuration < 0 then { s with softStartDuration := 0 } else s

/-- The phase-offset normalisation loop of Settings::validate. -/
def wrapOffsets (s : SpeedSettings) : SpeedSettings :=
  { s with phaseOffset := fun p => wrapPhase (s.phaseOffset p) }

/-- Per-speed body of Settings::validate, in source statement order. -/
def validateSpeed (s : SpeedSettings) : SpeedSettings :=
  wrapOffsets (clampSoftStart (clampFreqHigh (clampFreqLow (swapMinMax s))))

/-- Default per-speed settings blocks from Settings::setDefaults. -/
def defaultSpeed33 : SpeedSettings :=
  { frequency := 50, minFrequency := 40, maxFrequency := 60,
    phaseOffset := ![0, 90, 120, 240],
    softStartDuration := 1, reducedAmplitude := 80, amplitudeDelay := 5,
    startupKick := 1, startupKickDuration := 1, startupKickRampDuration := 1,
    filterType := FilterType.none, iirAlpha := 0.5, firProfile := FirProfile.medium }

def defaultSpeed45 : SpeedSettings :=
  { defaultSpeed33 with
    frequency := 67.5
    minFrequency := 57.5
    maxFrequency := 77.5 }

def defaultSpeed78 : SpeedSettings :=
  { defaultSpeed33 with
    frequency := 113.5
    minFrequency := 100
    maxFrequency := 130
    softStartDuration := 1.5
    reducedAmplitude := 90 }

/-- Settings::setDefaults, as the settings value it assigns. -/
def setDefaults : GlobalSettings :=
  { schemaVersion := 4
    phaseMode := 3
    maxAmplitude := 100
    softStartCurve := 0
    smoothSwitching := true
    switchRampDuration := 2
    brakeMode := 2
    brakeDuration := 2
    brakePulseGap := 0.5
    brakeStartFreq := 50
    brakeStopFreq := 0
    relayActiveHigh := true
    muteRelayLinkStandby := true
    muteRelayLinkStartStop := true
    powerOnRelayDelay := 2
    displayBrightness := 255
    displaySleepDelay := 0
    screensaverEnabled := true
    autoDimDelay := 0
    showRuntime := true
    errorDisplayEnabled := true
    errorDisplayDuration := 10
    autoStandbyDelay := 0
    autoStart := false
    autoBoot := false
    pitchResetOnStop := true
    speeds := ![defaultSpeed33, defaultSpeed45, defaultSpeed78]
    presetNames := fun i => "Preset " ++ toString (i.1 + 1)
    totalRuntime := 0
    reverseEncoder := false
    pitchStepSize := 0.1
    rampType := 1
    screensaverMode := 0
    enable78rpm := true
    freqDependentAmplitude := 0
    bootSpeed := 3
    currentSpeed := 0 }

/-- Schema check at the top of Settings::validate (mismatch resets to
defaults via resetDefaults). -/
def resetIfSchemaMismatch (g : GlobalSettings) : GlobalSettings :=
  if g.schemaVersion ≠ 4 then setDefaults else g

/-- Statement `if (currentSpeed > SPEED_78) currentSpeed = SPEED_33`. -/
def clampCurrentSpeed (g : GlobalSettings) : GlobalSettings :=
  if 2 < g.currentSpeed then { g with currentSpeed := 0 } else g

/-- Statement `if (maxAmplitude > 100) maxAmplitude = 100`. -/
def clampMaxAmplitude (g : GlobalSettings) : GlobalSettings :=
  if 100 < g.maxAmplitude then { g with maxAmplitude := 100 } else g

/-- Settings::validate.  A schema mismatch resets to defaults, after which
the in-place clamps run; the function never reports an error. -/
def validate (g : GlobalSettings) : GlobalSettings :=
  let d := clampMaxAmplitude (clampCurrentSpeed (resetIfSchemaMismatch g))
  { d with speeds := fun i => validateSpeed (d.speeds i) }

theorem swapMinMax_le (s : SpeedSettings) :
    (swapMinMax s).minFrequency ≤ (swapMinMax s).maxFrequency := by
  unfold swapMinMax
  split_ifs with h
  · simp
    linarith
  · linarith [not_lt.mp h]

theorem clampFreqLow_min (s : SpeedSettings) :
    (clampFreqLow s).minFrequency = s.minFrequency ∧
    (clampFreqLow s).maxFrequency = s.maxFrequency := by
  unfold clampFreqLow
  split_ifs <;> simp

theorem clampFreqLow_ge (s : SpeedSettings) :
    s.minFrequency ≤ (clampFreqLow s).frequency := by
  unfold clampFreqLow
  split_ifs with h
  · simp
  · linarith [not_lt.mp h]

theorem clampFreqHigh_min (s : SpeedSettings) :
    (clampFreqHigh s).minFrequency = s.minFrequency ∧
    (clampFreqHigh s).maxFrequency = s.maxFrequency := by
  unfold clampFreqHigh
  split_ifs <;> simp

theorem clampFreqHigh_band (s : SpeedSettings) (hmm : s.minFrequency ≤ s.maxFrequency)
    (hlo : s.minFrequency ≤ s.frequency) :
    (clampFreqHigh s).minFrequency ≤ (clampFreqHigh s).frequency ∧
    (clampFreqHigh s).frequency ≤ (clampFreqHigh s).maxFrequency := by
  unfold clampFreqHigh
  split_ifs with h
  · simp
    exact hmm
  · exact ⟨hlo, not_lt.mp h⟩

theorem clampSoftStart_freq (s : SpeedSettings) :
    (clampSoftStart s).frequency = s.frequency ∧
    (clampSoftStart s).minFrequency = s.minFrequency ∧
    (clampSoftStart s).maxFrequency = s.maxFrequency := by
  unfold clampSoftStart
  split_ifs <;> simp

theorem validateSpeed_band (s : SpeedSettings) :
    (validateSpeed s).minFrequency ≤ (validateSpeed s).frequency ∧
    (validateSpeed s).frequency ≤ (validateSpeed s).maxFrequency := by
  unfold validateSpeed wrapOffsets
  have h1 := swapMinMax_le s
  have h2 := clampFreqLow_min (swapMinMax s)
  have h3 := clampFreqLow_ge (swapMinMax s)
  have h3a : (clampFreqLow (swapMinMax s)).minFrequency ≤ (clampFreqLow (swapMinMax s)).frequency := by
    rw [h2.1]; exact h3
  have h4 := clampFreqHigh_band (clampFreqLow (swapMinMax s)) (by rw [h2.1, h2.2]; exact h1) h3a
  have h5 := clampSoftStart_freq (clampFreqHigh (clampFreqLow (swapMinMax s)))
  simp only []
  rw [h5.1, h5.2.1, h5.2.2]
  exact h4

theorem validateSpeed_phase (s : SpeedSettings) (p : Fin 4) :
    0 ≤ (validateSpeed s).phaseOffset p ∧ (validateSpeed s).phaseOffset p < 360 := by
  unfold validateSpeed wrapOffsets
  exact wrapPhase_mem _

theorem clampMaxAmplitude_le (g : GlobalSettings) :
    (clampMaxAmplitude g).maxAmplitude ≤ 100 ∨
    (clampMaxAmplitude g).maxAmplitude = g.maxAmplitude := by
  unfold clampMaxAmplitude
  split_ifs <;> simp

/-- C7: after Settings::validate, for each of the three speed profiles
min ≤ nominal ≤ max, every per-channel phase offset lies in [0, 360), and the
global maximum amplitude is at most 100; validate is a total clamping
function (it never signals an error). -/
theorem validate_clamps_invariants (g : GlobalSettings) :
    (∀ i : Fin 3,
      ((validate g).speeds i).minFrequency ≤ ((validate g).speeds i).frequency ∧
      ((validate g).speeds i).frequency ≤ ((validate g).speeds i).maxFrequency) ∧
    (∀ i : Fin 3, ∀ p : Fin 4,
      0 ≤ ((validate g).speeds i).phaseOffset p ∧
      ((validate g).speeds i).phaseOffset p < 360) ∧
    (validate g).maxAmplitude ≤ 100 := by
  refine ⟨fun i => ?_, fun i p => ?_, ?_⟩
  · exact validateSpeed_band _
  · exact validateSpeed_phase _ _
  · show (clampMaxAmplitude (clampCurrentSpeed (resetIfSchemaMismatch g))).maxAmplitude ≤ 100
    unfold clampMaxAmplitude
    split_ifs with h
    · simp
    · simpa using Nat.le_of_not_lt h

/-- C truncating float-to-integer conversion (toward zero). -/
def ratTrunc (q : ℚ) : ℤ := if q < 0 then ⌈q⌉ else ⌊q⌋

/-- C cast to int16_t (two's-complement wrap). -/
def toInt16 (z : ℤ) : ℤ := (z + 32768) % 65536 - 32768

/-- C cast to uint16_t (wrap modulo 2^16). -/
def toUInt16 (z : ℤ) : ℕ := (z % 65536).toNat

/-- C cast to uint32_t (wrap modulo 2^32). -/
def toUInt32 (z : ℤ) : ℕ := (z % 4294967296).toNat

/-- FIR_COEFFS_GENTLE / MEDIUM / AGGRESSIVE from waveform.cpp. -/
def firCoeffs : FirProfile → Fin 8 → ℚ
  | FirProfile.gentle => ![0, 0, 0.1, 0.4, 0.4, 0.1, 0, 0]
  | FirProfile.medium => ![0.05, 0.05, 0.1, 0.3, 0.3, 0.1, 0.05, 0.05]
  | FirProfile.aggressive => ![0.1, 0.1, 0.1, 0.2, 0.2, 0.1, 0.1, 0.1]

/-- `WaveformState` from waveform.h (the double-buffered parameter block). -/
structure WaveformState where
  frequency : ℚ
  phaseInc : ℕ
  phaseOffsets : Fin 4 → ℕ
  amplitude : ℚ
  filterType : FilterType
  iirAlpha : ℚ
  firProfile : FirProfile

/-- The unbuffered synthesis state of WaveformGenerator: master phase
accumulator `_phaseAcc[0]`, `_iirPrev`, `_firBuffer`. -/
structure SynthState where
  phaseAcc : ℕ
  iirPrev : Fin 4 → ℚ
  firBuffer : Fin 4 → Fin 8 → ℚ

/-- WaveformGenerator::getSample for one channel: returns the emitted sample
together with the channel's updated IIR and FIR state.  The LUT size is
16384 so `_lutShift = 18`; `>> 10` on a signed int is floor division. -/
def getSample (lut : ℕ → ℤ) (st : WaveformState) (phaseAcc : ℕ) (iirPrev : ℚ)
    (firBuf : Fin 8 → ℚ) (ch : Fin 4) : ℤ × ℚ × (Fin 8 → ℚ) :=
  let phase := (phaseAcc + st.phaseOffsets ch) % 4294967296
  let index := phase / 2 ^ 18
  let frac : ℕ := (phase / 2 ^ 8) % 1024
  let nextIndex := if 16384 ≤ index + 1 then 0 else index + 1
  let s1 := lut index
  let s2 := lut nextIndex
  let val0 : ℤ := s1 + ((s2 - s1) * (frac : ℤ)).fdiv 1024
  let val1 : ℤ := ratTrunc ((val0 : ℚ) * st.amplitude)
  match st.filterType with
  | FilterType.none => (toInt16 val1, iirPrev, firBuf)
  | FilterType.iir =>
    let out := st.iirAlpha * (val1 : ℚ) + (1 - st.iirAlpha) * iirPrev
    (toInt16 (toInt16 (ratTrunc out)), out, firBuf)
  | FilterType.fir =>
    let newBuf : Fin 8 → ℚ := fun j => if j = 0 then ((val1 : ℤ) : ℚ) else firBuf (j - 1)
    let s := ∑ j : Fin 8, newBuf j * firCoeffs st.firProfile j
    (toInt16 (toInt16 (ratTrunc s)), iirPrev, newBuf)

/-- Offset to the 0..1023 compare range (centre 512) and clamp, as in
WaveformGenerator::fillBuffer. -/
def clampCC (s : ℤ) : ℕ :=
  let v := toUInt16 (512 + s)
  if 1023 < v then 1023 else v

/-- `(valB << 16) | valA` packing of two compare values into a DMA word. -/
def packWord (a b : ℕ) : ℕ := (b <<< 16) ||| a

/-- One iteration of the fillBuffer loop: sample all four channels from the
current master phase, advance the master phase by `phaseInc`, and pack the
slice-0 word (channels 0,1) and the slice-1 word (channels 2,3). -/
def tick (lut : ℕ → ℤ) (st : WaveformState) (σ : SynthState) : SynthState × ℕ × ℕ :=
  let r0 := getSample lut st σ.phaseAcc (σ.iirPrev 0) (σ.firBuffer 0) 0
  let r1 := getSample lut st σ.phaseAcc (σ.iirPrev 1) (σ.firBuffer 1) 1
  let r2 := getSample lut st σ.phaseAcc (σ.iirPrev 2) (σ.firBuffer 2) 2
  let r3 := getSample lut st σ.phaseAcc (σ.iirPrev 3) (σ.firBuffer 3) 3
  (⟨(σ.phaseAcc + st.phaseInc) % 4294967296,
    ![r0.2.1, r1.2.1, r2.2.1, r3.2.1],
    ![r0.2.2, r1.2.2, r2.2.2, r3.2.2]⟩,
   packWord (clampCC r0.1) (clampCC r1.1),
   packWord (clampCC r2.1) (clampCC r3.1))

/-- The fillBuffer loop over `n` PWM ticks, collecting the packed words for
both slices. -/
def runTicks (lut : ℕ → ℤ) (st : WaveformState) : ℕ → SynthState → SynthState × List (ℕ × ℕ)
  | 0, σ => (σ, [])
  | n + 1, σ =>
    let t := tick lut st σ
    let r := runTicks lut st n t.1
    (r.1, t.2 :: r.2)

/-- The WaveformGenerator object.  `lut` is the contents of the `_lut`
array; the DMA buffers hold the packed 32-bit words per slice and half. -/
structure WaveformGenerator where
  lut : ℕ → ℤ
  enabled : Bool
  swapPending : Bool
  activeState : WaveformState
  pendingState : WaveformState
  synth : SynthState
  bufSlice0 : Fin 2 → List ℕ
  bufSlice1 : Fin 2 → List ℕ

/-- Phase-increment computation of WaveformGenerator::setFrequency and
updateSettings: `inc = freq * 85899.34592` (that is `freq * 2^32 / 50000`)
followed by the C cast to uint32_t. -/
def phaseIncOf (freq : ℚ) : ℕ := toUInt32 (ratTrunc (freq * 85899.34592))

/-- Degrees-to-phase conversion of configure and updateSettings:
`(uint32_t)((deg / 360) * 4294967296.0)`. -/
def degToPhase (deg : ℚ) : ℕ := toUInt32 (ratTrunc (deg / 360 * 4294967296))

/-- WaveformGenerator::setFrequency (writes the pending state and requests
a swap). -/
def setFrequency (g : WaveformGenerator) (freq : ℚ) : WaveformGenerator :=
  { g with
    pendingState := { g.pendingState with frequency := freq, phaseInc := phaseIncOf freq }
    swapPending := true }

/-- WaveformGenerator::setAmplitude (clamps the argument into [0, 1]). -/
def setAmplitude (g : WaveformGenerator) (amp : ℚ) : WaveformGenerator :=
  let a1 := if amp < 0 then 0 else amp
  let a2 := if 1 < a1 then 1 else a1
  { g with pendingState := { g.pendingState with amplitude := a2 }, swapPending := true }

/-- WaveformGenerator::setEnabled. -/
def setEnabled (g : WaveformGenerator) (e : Bool) : WaveformGenerator :=
  { g with enabled := e }

/-- WaveformGenerator::configure. -/
def configure (g : WaveformGenerator) (s : SpeedSettings) : WaveformGenerator :=
  { g with
    pendingState := { g.pendingState with
      filterType := s.filterType
      iirAlpha := s.iirAlpha
      firProfile := s.firProfile
      phaseOffsets := fun i => degToPhase (s.phaseOffset i) }
    swapPending := true }

/-- WaveformGenerator::updateSettings. -/
def updateSettings (g : WaveformGenerator) (freq : ℚ) (s : SpeedSettings) : WaveformGenerator :=
  { g with
    pendingState := { g.pendingState with
      frequency := freq
      phaseInc := phaseIncOf freq
      filterType := s.filterType
      iirAlpha := s.iirAlpha
      firProfile := s.firProfile
      phaseOffsets := fun i => degToPhase (s.phaseOffset i) }
    swapPending := true }

/-- The pending-state swap at the head of fillBuffer: the active pointer
takes the pending block and the new pending is overwritten with a copy of
the new active, so both hold the previously pending value. -/
def applySwap (g : WaveformGenerator) : WaveformGenerator :=
  if g.swapPending then
    { g with activeState := g.pendingState, pendingState := g.pendingState,
             swapPending := false }
  else g

/-- WaveformGenerator::fillBuffer.  Disabled: both slices' halves are filled
with zero words and nothing else changes.  Enabled: resolve a pending swap,
then synthesise 256 ticks from the active state. -/
def fillBuffer (g : WaveformGenerator) (idx : Fin 2) : WaveformGenerator :=
  if g.enabled = false then
    { g with
      bufSlice0 := Function.update g.bufSlice0 idx (List.replicate 256 0)
      bufSlice1 := Function.update g.bufSlice1 idx (List.replicate 256 0) }
  else
    let g1 := applySwap g
    let r := runTicks g1.lut g1.activeState 256 g1.synth
    { g1 with
      synth := r.1
      bufSlice0 := Function.update g1.bufSlice0 idx (r.2.map Prod.fst)
      bufSlice1 := Function.update g1.bufSlice1 idx (r.2.map Prod.snd) }

/-- The `_stateA` defaults written by the WaveformGenerator constructor. -/
def initWaveformState : WaveformState :=
  { frequency := 50, phaseInc := 0, phaseOffsets := fun _ => 0, amplitude := 0,
    filterType := FilterType.none, iirAlpha := 0, firProfile := FirProfile.gentle }

/-- WaveformGenerator state after the constructor and begin() (begin
pre-fills both halves while disabled, hence zero words). -/
def initGen (lut : ℕ → ℤ) : WaveformGenerator :=
  { lut := lut
    enabled := false
    swapPending := false
    activeState := initWaveformState
    pendingState := initWaveformState
    synth := { phaseAcc := 0, iirPrev := fun _ => 0, firBuffer := fun _ _ => 0 }
    bufSlice0 := fun _ => List.replicate 256 0
    bufSlice1 := fun _ => List.replicate 256 0 }

/-- The 16-bit compare value of channel `c` in DMA word `k` of buffer half
`idx`: channels 0,1 are the low/high halves of the slice-0 word and
channels 2,3 the low/high halves of the slice-1 word. -/
def chanCompare (g : WaveformGenerator) (idx : Fin 2) (k : ℕ) : ℕ → Option ℕ
  | 0 => ((g.bufSlice0 idx).get? k).map (fun w => w % 65536)
  | 1 => ((g.bufSlice0 idx).get? k).map (fun w => w / 65536)
  | 2 => ((g.bufSlice1 idx).get? k).map (fun w => w % 65536)
  | _ => ((g.bufSlice1 idx).get? k).map (fun w => w / 65536)

theorem packWord_eq (a b : ℕ) (ha : a < 65536) : packWord a b = b * 65536 + a := by
  unfold packWord
  have hmod : ((b <<< 16) ||| a) % 65536 = a := by
    have h16 : (65536 : ℕ) = 2 ^ 16 := by norm_num
    rw [h16]
    have h2 : a % 2 ^ 16 = a := Nat.mod_eq_of_lt (by omega)
    conv_rhs => rw [← h2]
    apply Nat.eq_of_testBit_eq
    intro i
    simp only [Nat.testBit_mod_two_pow, Nat.testBit_lor, Nat.testBit_shiftLeft]
    by_cases hi : i < 16
    · simp [hi, show ¬ (i ≥ 16) by omega]
    · simp [hi]
  have hdiv : ((b <<< 16) ||| a) / 65536 = b := by
    have h3 : ((b <<< 16) ||| a) / 65536 = ((b <<< 16) ||| a) >>> 16 := by
      rw [Nat.shiftRight_eq_div_pow]
    rw [h3]
    apply Nat.eq_of_testBit_eq
    intro i
    rw [Nat.testBit_shiftRight, Nat.testBit_lor, Nat.testBit_shiftLeft]
    have hafalse : a.testBit (16 + i) = false := Nat.testBit_lt_two_pow (by
      calc a < 65536 := ha
        _ = 2 ^ 16 := by norm_num
        _ ≤ 2 ^ (16 + i) := Nat.pow_le_pow_right (by norm_num) (by omega))
    rw [hafalse]
    simp [show (16 + i ≥ 16) by omega]
  omega

theorem clampCC_le (s : ℤ) : clampCC s ≤ 1023 := by
  unfold clampCC toUInt16
  dsimp only
  split_ifs with h
  · exact le_rfl
  · omega

theorem clampCC_lt (s : ℤ) : clampCC s < 65536 := lt_of_le_of_lt (clampCC_le s) (by norm_num)

theorem pack_halves_le (a b : ℕ) (ha : a ≤ 1023) (hb : b ≤ 1023) :
    packWord a b % 65536 ≤ 1023 ∧ packWord a b / 65536 ≤ 1023 := by
  rw [packWord_eq a b (by omega)]
  omega

theorem tick_phase (lut : ℕ → ℤ) (st : WaveformState) (σ : SynthState) :
    (tick lut st σ).1.phaseAcc = (σ.phaseAcc + st.phaseInc) % 4294967296 := rfl

theorem runTicks_phase (lut : ℕ → ℤ) (st : WaveformState) :
    ∀ (n : ℕ) (σ : SynthState), σ.phaseAcc < 4294967296 →
      (runTicks lut st n σ).1.phaseAcc = (σ.phaseAcc + n * st.phaseInc) % 4294967296 := by
  intro n
  induction n with
  | zero => intro σ hσ; simp [runTicks, Nat.mod_eq_of_lt hσ]
  | succ n ih =>
    intro σ hσ
    have hlt : (tick lut st σ).1.phaseAcc < 4294967296 := by
      rw [tick_phase]; exact Nat.mod_lt _ (by norm_num)
    show (runTicks lut st n (tick lut st σ).1).1.phaseAcc = _
    rw [ih _ hlt, tick_phase, Nat.mod_add_mod]
    congr 1
    ring

theorem runTicks_words_le (lut : ℕ → ℤ) (st : WaveformState) :
    ∀ (n : ℕ) (σ : SynthState) (w : ℕ × ℕ), w ∈ (runTicks lut st n σ).2 →
      (w.1 % 65536 ≤ 1023 ∧ w.1 / 65536 ≤ 1023) ∧
      (w.2 % 65536 ≤ 1023 ∧ w.2 / 65536 ≤ 1023) := by
  intro n
  induction n with
  | zero => intro σ w hw; simp [runTicks] at hw
  | succ n ih =>
    intro σ w hw
    have hw2 : w = (tick lut st σ).2 ∨ w ∈ (runTicks lut st n (tick lut st σ).1).2 := by
      simpa [runTicks] using hw
    rcases hw2 with h | h
    · subst h
      exact ⟨pack_halves_le _ _ (clampCC_le _) (clampCC_le _),
             pack_halves_le _ _ (clampCC_le _) (clampCC_le _)⟩
    · exact ih _ _ h

/-- C9: for every enabled refill, with the amplitude scalar in [0, 1] (as
setAmplitude guarantees) and the IIR alpha in [0.01, 0.99], every 16-bit
compare value packed into either slice's DMA words lies in [0, 1023] (the
lower bound holds because the values are naturals). -/
theorem compare_values_in_range (g : WaveformGenerator) (idx : Fin 2)
    (hen : g.enabled = true)
    (hamp0 : 0 ≤ (applySwap g).activeState.amplitude)
    (hamp1 : (applySwap g).activeState.amplitude ≤ 1)
    (halpha0 : (0.01 : ℚ) ≤ (applySwap g).activeState.iirAlpha)
    (halpha1 : (applySwap g).activeState.iirAlpha ≤ 0.99) :
    (∀ w ∈ (fillBuffer g idx).bufSlice0 idx, w % 65536 ≤ 1023 ∧ w / 65536 ≤ 1023) ∧
    (∀ w ∈ (fillBuffer g idx).bufSlice1 idx, w % 65536 ≤ 1023 ∧ w / 65536 ≤ 1023) := by
  unfold fillBuffer
  rw [hen]
  simp only [Bool.true_eq_false, if_false, Function.update_same]
  constructor
  · intro w hw
    rcases List.mem_map.mp hw with ⟨p, hp, rfl⟩
    exact (runTicks_words_le _ _ _ _ _ hp).1
  · intro w hw
    rcases List.mem_map.mp hw with ⟨p, hp, rfl⟩
    exact (runTicks_words_le _ _ _ _ _ hp).2

/-- Concrete generator used to witness the compare-range theorem: defaults
applied through updateSettings, then enabled. -/
def witnessGen : WaveformGenerator :=
  setEnabled (updateSettings (initGen (fun _ => 0)) 50 defaultSpeed33) true

theorem compare_values_in_range_witness :
    (witnessGen.enabled = true ∧
      0 ≤ (applySwap witnessGen).activeState.amplitude ∧
      (applySwap witnessGen).activeState.amplitude ≤ 1 ∧
      (0.01 : ℚ) ≤ (applySwap witnessGen).activeState.iirAlpha ∧
      (applySwap witnessGen).activeState.iirAlpha ≤ 0.99) ∧
    ((∀ w ∈ (fillBuffer witnessGen 0).bufSlice0 0, w % 65536 ≤ 1023 ∧ w / 65536 ≤ 1023) ∧
     (∀ w ∈ (fillBuffer witnessGen 0).bufSlice1 0, w % 65536 ≤ 1023 ∧ w / 65536 ≤ 1023)) :=
  ⟨⟨rfl, by norm_num [witnessGen, applySwap, updateSettings, setEnabled, initGen, initWaveformState],
    by norm_num [witnessGen, applySwap, updateSettings, setEnabled, initGen, initWaveformState],
    by norm_num [witnessGen, applySwap, updateSettings, setEnabled, initGen, defaultSpeed33],
    by norm_num [witnessGen, applySwap, updateSettings, setEnabled, initGen, defaultSpeed33]⟩,
   compare_values_in_range witnessGen 0 rfl
    (by norm_num [witnessGen, applySwap, updateSettings, setEnabled, initGen, initWaveformState])
    (by norm_num [witnessGen, applySwap, updateSettings, setEnabled, initGen, initWaveformState])
    (by norm_num [witnessGen, applySwap, updateSettings, setEnabled, initGen, defaultSpeed33])
    (by norm_num [witnessGen, applySwap, updateSettings, setEnabled, initGen, defaultSpeed33])⟩

/-- C3 (amended): a refill while the generator is disabled writes 256 zero
words into both slices' buffer halves (each 16-bit half packs compare value
0, not the centre 512), and leaves the master phase accumulator and the
IIR/FIR filter histories untouched. -/
theorem fillBuffer_disabled_writes_zero_words (g : WaveformGenerator) (idx : Fin 2)
    (h : g.enabled = false) :
    (fillBuffer g idx).bufSlice0 idx = List.replicate 256 0 ∧
    (fillBuffer g idx).bufSlice1 idx = List.replicate 256 0 ∧
    (fillBuffer g idx).synth = g.synth := by
  unfold fillBuffer
  rw [h]
  split_ifs with hc
  · exact ⟨Function.update_same idx _ _, Function.update_same idx _ _, rfl⟩
  · exact absurd rfl hc

theorem fillBuffer_disabled_writes_zero_words_witness :
    (initGen (fun _ => 0)).enabled = false ∧
    ((fillBuffer (initGen (fun _ => 0)) 0).bufSlice0 0 = List.replicate 256 0 ∧
     (fillBuffer (initGen (fun _ => 0)) 0).bufSlice1 0 = List.replicate 256 0 ∧
     (fillBuffer (initGen (fun _ => 0)) 0).synth = (initGen (fun _ => 0)).synth) :=
  ⟨rfl, fillBuffer_disabled_writes_zero_words (initGen (fun _ => 0)) 0 rfl⟩

/-- C3 counterexample: the claim says every disabled-refill word packs the
centre compare value 512 in each 16-bit half; on the freshly constructed
(disabled) generator the refilled half holds words whose low half is 0. -/
theorem fillBuffer_disabled_counterexample :
    ¬ (∀ w ∈ (fillBuffer (initGen (fun _ => 0)) 0).bufSlice0 0,
        w % 65536 = 512 ∧ w / 65536 = 512) := by
  decide

/-- C6 counterexample: the claim says the phase increment is
round(f·2^32/f_PWM); setFrequency computes `(uint32_t)(freq * 85899.34592)`,
a truncation.  At f = 25 Hz the exact product is 2147483.648, so the code
yields 2147483 while the claim demands round(25·2^32/50000) = 2147484;
after k = 1 tick from a zero accumulator the two differ. -/
theorem phase_increment_truncates_counterexample :
    phaseIncOf 25 = 2147483 ∧
    round ((1 : ℚ) * 25 * 4294967296 / 50000) = 2147484 ∧
    (runTicks (fun _ => 0) { initWaveformState with phaseInc := phaseIncOf 25 } 1
      { phaseAcc := 0, iirPrev := fun _ => 0, firBuffer := fun _ _ => 0 }).1.phaseAcc
      = 2147483 := by
  have hfloor : ⌊(25 : ℚ) * 85899.34592⌋ = 2147483 := by
    rw [Int.floor_eq_iff]
    norm_num
  have h1 : phaseIncOf 25 = 2147483 := by
    unfold phaseIncOf ratTrunc toUInt32
    rw [if_neg (by norm_num), hfloor]
    decide
  refine ⟨h1, ?_, ?_⟩
  · rw [round_eq, Int.floor_eq_iff]
    norm_num
  · rw [runTicks_phase _ _ 1 _ (by norm_num), h1]
    norm_num

/-- C6 (amended): setFrequency truncates, so the pending increment is
⌊f·2^32/50000⌋ (for f in [10, 3000] this fits a uint32), and after k enabled
ticks from a zero master phase the accumulator is k·⌊f·2^32/50000⌋ mod 2^32. -/
theorem phase_accumulator_evolution (lut : ℕ → ℤ) (st : WaveformState) (f : ℚ) (k : ℕ)
    (hf0 : 10 ≤ f) (hf1 : f ≤ 3000) (hinc : st.phaseInc = phaseIncOf f)
    (σ : SynthState) (hσ : σ.phaseAcc = 0) :
    phaseIncOf f = (⌊f * 85899.34592⌋).toNat ∧
    (runTicks lut st k σ).1.phaseAcc
      = (k * (⌊f * 85899.34592⌋).toNat) % 4294967296 := by
  have hnn : (0 : ℚ) ≤ f * 85899.34592 := mul_nonneg (by linarith) (by norm_num)
  have htr : ratTrunc (f * 85899.34592) = ⌊f * 85899.34592⌋ := by
    unfold ratTrunc
    rw [if_neg (not_lt.mpr hnn)]
  have hub : f * 85899.34592 ≤ 257698037.76 := by nlinarith
  have hle : ⌊f * 85899.34592⌋ ≤ 257698037 := by
    calc ⌊f * 85899.34592⌋ ≤ ⌊(257698037.76 : ℚ)⌋ := Int.floor_le_floor hub
      _ = 257698037 := by rw [Int.floor_eq_iff]; norm_num
  have hge : 0 ≤ ⌊f * 85899.34592⌋ := Int.floor_nonneg.mpr hnn
  have h1 : phaseIncOf f = (⌊f * 85899.34592⌋).toNat := by
    unfold phaseIncOf toUInt32
    rw [htr, Int.emod_eq_of_lt hge (by omega)]
  refine ⟨h1, ?_⟩
  rw [runTicks_phase lut st k σ (by rw [hσ]; norm_num), hσ, hinc, h1, zero_add]

theorem phase_accumulator_evolution_witness :
    ((10 : ℚ) ≤ 50 ∧ (50 : ℚ) ≤ 3000) ∧
    (phaseIncOf 50 = (⌊(50 : ℚ) * 85899.34592⌋).toNat ∧
     (runTicks (fun _ => 0) { initWaveformState with phaseInc := phaseIncOf 50 } 3
       { phaseAcc := 0, iirPrev := fun _ => 0, firBuffer := fun _ _ => 0 }).1.phaseAcc
       = (3 * (⌊(50 : ℚ) * 85899.34592⌋).toNat) % 4294967296) :=
  ⟨⟨by norm_num, by norm_num⟩,
   phase_accumulator_evolution (fun _ => 0) _ 50 3 (by norm_num) (by norm_num) rfl _ rfl⟩

theorem vec4_eta {α : Type} (f : Fin 4 → α) : (![f 0, f 1, f 2, f 3] : Fin 4 → α) = f := by
  funext i
  fin_cases i <;> rfl

/-- The pure sample computation of getSample (everything up to and including
the amplitude scaling and the final int16 cast), shared by all channels. -/
def sampleAt (lut : ℕ → ℤ) (st : WaveformState) (phaseAcc : ℕ) (ch : Fin 4) : ℤ :=
  let phase := (phaseAcc + st.phaseOffsets ch) % 4294967296
  let index := phase / 2 ^ 18
  let frac : ℕ := (phase / 2 ^ 8) % 1024
  let nextIndex := if 16384 ≤ index + 1 then 0 else index + 1
  let s1 := lut index
  let s2 := lut nextIndex
  toInt16 (ratTrunc (((s1 + ((s2 - s1) * (frac : ℤ)).fdiv 1024 : ℤ) : ℚ) * st.amplitude))

theorem getSample_none (lut : ℕ → ℤ) (st : WaveformState)
    (hft : st.filterType = FilterType.none) (ph : ℕ) (iirP : ℚ) (firB : Fin 8 → ℚ)
    (ch : Fin 4) :
    getSample lut st ph iirP firB ch = (sampleAt lut st ph ch, iirP, firB) := by
  unfold getSample sampleAt
  rw [hft]

theorem tick_none (lut : ℕ → ℤ) (st : WaveformState)
    (hft : st.filterType = FilterType.none) (σ : SynthState) :
    tick lut st σ =
      (⟨(σ.phaseAcc + st.phaseInc) % 4294967296, σ.iirPrev, σ.firBuffer⟩,
       packWord (clampCC (sampleAt lut st σ.phaseAcc 0)) (clampCC (sampleAt lut st σ.phaseAcc 1)),
       packWord (clampCC (sampleAt lut st σ.phaseAcc 2)) (clampCC (sampleAt lut st σ.phaseAcc 3))) := by
  unfold tick
  simp only [getSample_none lut st hft]
  rw [show (⟨(σ.phaseAcc + st.phaseInc) % 4294967296, σ.iirPrev, σ.firBuffer⟩ : SynthState)
      = ⟨(σ.phaseAcc + st.phaseInc) % 4294967296,
         ![σ.iirPrev 0, σ.iirPrev 1, σ.iirPrev 2, σ.iirPrev 3],
         ![σ.firBuffer 0, σ.firBuffer 1, σ.firBuffer 2, σ.firBuffer 3]⟩ by
    rw [vec4_eta, vec4_eta]]

theorem runTicks_get_none (lut : ℕ → ℤ) (st : WaveformState)
    (hft : st.filterType = FilterType.none) :
    ∀ (n k : ℕ) (σ : SynthState), σ.phaseAcc < 4294967296 → k < n →
      (runTicks lut st n σ).2.get? k =
        some (packWord (clampCC (sampleAt lut st ((σ.phaseAcc + k * st.phaseInc) % 4294967296) 0))
                (clampCC (sampleAt lut st ((σ.phaseAcc + k * st.phaseInc) % 4294967296) 1)),
              packWord (clampCC (sampleAt lut st ((σ.phaseAcc + k * st.phaseInc) % 4294967296) 2))
                (clampCC (sampleAt lut st ((σ.phaseAcc + k * st.phaseInc) % 4294967296) 3))) := by
  intro n
  induction n with
  | zero => intro k σ hσ hk; omega
  | succ n ih =>
    intro k σ hσ hk
    cases k with
    | zero =>
      show ((tick lut st σ).2 :: (runTicks lut st n (tick lut st σ).1).2).get? 0 = _
      rw [tick_none lut st hft σ]
      simp [Nat.mod_eq_of_lt hσ]
    | succ k =>
      show ((tick lut st σ).2 :: (runTicks lut st n (tick lut st σ).1).2).get? (k + 1) = _
      have hph : ((tick lut st σ).1.phaseAcc + k * st.phaseInc) % 4294967296
          = (σ.phaseAcc + (k + 1) * st.phaseInc) % 4294967296 := by
        rw [tick_phase, Nat.mod_add_mod]
        congr 1
        ring
      have := ih k (tick lut st σ).1
        (by rw [tick_phase]; exact Nat.mod_lt _ (by norm_num)) (by omega)
      rw [List.get?_cons_succ, this, hph]

theorem applySwap_of_not_pending (g : WaveformGenerator) (h : g.swapPending = false) :
    applySwap g = g := by
  unfold applySwap
  rw [h]
  simp

theorem packWord_mod (a b : ℕ) (ha : a < 65536) : packWord a b % 65536 = a := by
  rw [packWord_eq a b ha]
  omega

theorem packWord_div (a b : ℕ) (ha : a < 65536) : packWord a b / 65536 = b := by
  rw [packWord_eq a b ha]
  omega

/-- Every channel's compare value from an enabled, swap-free, pass-through
refill is the ordinary DDS sample of that channel at the shared master
phase. -/
theorem chanCompare_fillBuffer_none (g : WaveformGenerator) (idx : Fin 2)
    (hen : g.enabled = true) (hsw : g.swapPending = false)
    (hft : g.activeState.filterType = FilterType.none)
    (hph : g.synth.phaseAcc < 4294967296) (k : ℕ) (hk : k < 256) (c : Fin 4) :
    chanCompare (fillBuffer g idx) idx k c.1 =
      some (clampCC (sampleAt g.lut g.activeState
        ((g.synth.phaseAcc + k * g.activeState.phaseInc) % 4294967296) c)) := by
  have hbuf0 : (fillBuffer g idx).bufSlice0 idx
      = ((runTicks g.lut g.activeState 256 g.synth).2.map Prod.fst) := by
    unfold fillBuffer
    rw [hen]
    simp only [Bool.true_eq_false, if_false]
    rw [applySwap_of_not_pending g hsw]
    exact Function.update_same idx _ _
  have hbuf1 : (fillBuffer g idx).bufSlice1 idx
      = ((runTicks g.lut g.activeState 256 g.synth).2.map Prod.snd) := by
    unfold fillBuffer
    rw [hen]
    simp only [Bool.true_eq_false, if_false]
    rw [applySwap_of_not_pending g hsw]
    exact Function.update_same idx _ _
  have hget := runTicks_get_none g.lut g.activeState hft 256 k g.synth hph hk
  obtain ⟨cv, hcv⟩ := c
  interval_cases cv
  · simp only [chanCompare, hbuf0, List.get?_map, hget, Option.map_some']
    rw [packWord_mod _ _ (clampCC_lt _)]
    rfl
  · simp only [chanCompare, hbuf0, List.get?_map, hget, Option.map_some']
    rw [packWord_div _ _ (clampCC_lt _)]
    rfl
  · simp only [chanCompare, hbuf1, List.get?_map, hget, Option.map_some']
    rw [packWord_mod _ _ (clampCC_lt _)]
    rfl
  · simp only [chanCompare, hbuf1, List.get?_map, hget, Option.map_some']
    rw [packWord_div _ _ (clampCC_lt _)]
    rfl

/-- C truncating double-to-int conversion on reals (used only to model the
transcendental sine table; hence not computable). -/
noncomputable def realTrunc (x : ℝ) : ℤ := if x < 0 then ⌈x⌉ else ⌊x⌋

/-- WaveformGenerator::generateLUT: `_lut[i] = (int16_t)(sin(2*PI*i/N) * 511.0)`
with N = 16384, modelled with exact real sine. -/
noncomputable def generateLUT (i : ℕ) : ℤ :=
  realTrunc (Real.sin (2 * Real.pi * i / 16384) * 511)

theorem generateLUT_4096 : generateLUT 4096 = 511 := by
  unfold generateLUT
  have hang : (2 * Real.pi * ((4096 : ℕ) : ℝ) / 16384 : ℝ) = Real.pi / 2 := by
    push_cast
    ring
  rw [hang, Real.sin_pi_div_two, one_mul]
  unfold realTrunc
  rw [if_neg (by norm_num)]
  norm_num

/-- C2 (amended): the phase-mode setting never reaches the synthesis path.
fillBuffer synthesises all four channels by one uniform rule, so whatever
the phase mode N, a channel with index at or above N still carries its
ordinary DDS sample rather than a forced centre (512) compare value. -/
theorem fillBuffer_all_channels_synthesised (g : WaveformGenerator) (idx : Fin 2)
    (hen : g.enabled = true) (hsw : g.swapPending = false)
    (hft : g.activeState.filterType = FilterType.none)
    (hph : g.synth.phaseAcc < 4294967296) (k : ℕ) (hk : k < 256) (c : Fin 4) :
    chanCompare (fillBuffer g idx) idx k c.1 =
      some (clampCC (sampleAt g.lut g.activeState
        ((g.synth.phaseAcc + k * g.activeState.phaseInc) % 4294967296) c)) :=
  chanCompare_fillBuffer_none g idx hen hsw hft hph k hk c

/-- A generator reached from the freshly constructed state by
setFrequency(195.3125); setAmplitude(1.0); setEnabled(true) and the swap at
the head of the next refill.  The frequency is chosen so the phase
increment is exactly 2^24, putting the master phase at a quarter turn
(LUT peak) at tick 64 of the refill. -/
noncomputable def genC2 : WaveformGenerator :=
  applySwap (setEnabled (setAmplitude (setFrequency (initGen generateLUT) 195.3125) 1) true)

theorem genC2_phase0 : genC2.synth.phaseAcc = 0 := rfl

theorem genC2_lut : genC2.lut = generateLUT := rfl

theorem genC2_amplitude : genC2.activeState.amplitude = 1 := by
  norm_num [genC2, applySwap, setEnabled, setAmplitude, setFrequency, initGen,
    initWaveformState]

theorem genC2_phaseInc : genC2.activeState.phaseInc = 16777216 := by
  show phaseIncOf 195.3125 = 16777216
  unfold phaseIncOf ratTrunc toUInt32
  rw [if_neg (by norm_num),
    show ⌊(195.3125 : ℚ) * 85899.34592⌋ = 16777216 by rw [Int.floor_eq_iff]; norm_num]
  decide

theorem genC2_sample : sampleAt generateLUT genC2.activeState 1073741824 2 = 511 := by
  have e1 : sampleAt generateLUT genC2.activeState 1073741824 2
      = toInt16 (ratTrunc ((((generateLUT 4096
          + ((generateLUT 4097 - generateLUT 4096) * ((0 : ℕ) : ℤ)).fdiv 1024) : ℤ) : ℚ)
          * genC2.activeState.amplitude)) := rfl
  rw [e1, generateLUT_4096, genC2_amplitude]
  rw [show ((generateLUT 4097 - 511) * ((0 : ℕ) : ℤ)).fdiv 1024 = 0 by simp]
  norm_num [ratTrunc, toInt16]

theorem genC2_compare : chanCompare (fillBuffer genC2 0) 0 64 2 = some 1023 := by
  have happly := chanCompare_fillBuffer_none genC2 0 rfl rfl rfl
    (by rw [genC2_phase0]; norm_num) 64 (by norm_num) 2
  have hphase : (genC2.synth.phaseAcc + 64 * genC2.activeState.phaseInc) % 4294967296
      = 1073741824 := by
    rw [genC2_phaseInc, genC2_phase0]
  rw [hphase, genC2_lut] at happly
  rw [show ((2 : Fin 4) : ℕ) = 2 from rfl] at happly
  rw [happly, genC2_sample]
  norm_num [clampCC, toUInt16]
  rfl

/-- C2 counterexample: the claim that under phase mode N every channel with
index ≥ N contributes the centre compare value 512 to every DMA word fails:
with N = 2, on a state reachable by ordinary driver calls (sine LUT,
enabled, amplitude 1), channel 2's compare value in word 64 is 1023. -/
theorem phase_mode_silencing_counterexample :
    ¬ (∀ N : ℕ, 1 ≤ N → N ≤ 4 →
        ∀ g : WaveformGenerator, g.lut = generateLUT → g.enabled = true →
          0 ≤ g.activeState.amplitude → g.activeState.amplitude ≤ 1 →
          ∀ c : ℕ, N ≤ c → c < 4 →
          ∀ (idx : Fin 2) (k : ℕ) (v : ℕ),
            chanCompare (fillBuffer g idx) idx k c = some v → v = 512) := by
  intro hclaim
  have h512 := hclaim 2 (by norm_num) (by norm_num) genC2 rfl rfl
    (by rw [genC2_amplitude]; norm_num) (by rw [genC2_amplitude]) 2 le_rfl
    (by norm_num) 0 64 1023 genC2_compare
  exact absurd h512 (by norm_num)

theorem fillBuffer_all_channels_synthesised_witness :
    (genC2.enabled = true ∧ genC2.swapPending = false ∧
     genC2.activeState.filterType = FilterType.none ∧
     genC2.synth.phaseAcc < 4294967296 ∧ (0 : ℕ) < 256) ∧
    chanCompare (fillBuffer genC2 0) 0 0 ((3 : Fin 4) : ℕ) =
      some (clampCC (sampleAt genC2.lut genC2.activeState
        ((genC2.synth.phaseAcc + 0 * genC2.activeState.phaseInc) % 4294967296) 3)) :=
  ⟨⟨rfl, rfl, rfl, by rw [genC2_phase0]; norm_num, by norm_num⟩,
   fillBuffer_all_channels_synthesised genC2 0 rfl rfl rfl
    (by rw [genC2_phase0]; norm_num) 0 (by norm_num) 3⟩

/-- A generator in which the IIR filter has been running (non-zero previous
output on every channel) while the active filter kind is IIR; the settings
update below switches the kind. -/
def gKindChange : WaveformGenerator :=
  { initGen (fun _ => 0) with
    activeState := { initWaveformState with filterType := FilterType.iir }
    synth := { phaseAcc := 0, iirPrev := fun _ => 5, firBuffer := fun _ _ => 0 } }

/-- C5 counterexample: updateSettings switches the filter kind from IIR to
pass-through, the swap publishes it, yet the per-channel IIR state keeps its
stale value 5 — nothing in the source ever resets `_iirPrev`/`_firBuffer`
after construction. -/
theorem filter_kind_change_no_reset_counterexample :
    ¬ (∀ (g : WaveformGenerator) (f : ℚ) (s : SpeedSettings),
        (applySwap (updateSettings g f s)).activeState.filterType ≠ g.activeState.filterType →
        (applySwap (updateSettings g f s)).synth.iirPrev = (fun _ => 0) ∧
        (applySwap (updateSettings g f s)).synth.firBuffer = (fun _ _ => 0)) := by
  intro hclaim
  have h := hclaim gKindChange 50 defaultSpeed33 (by decide)
  have h5 : (applySwap (updateSettings gKindChange 50 defaultSpeed33)).synth.iirPrev 0 = 5 := rfl
  rw [h.1] at h5
  norm_num at h5

/-- C5 (amended): neither updateSettings nor configure nor the publishing
swap touches the per-channel filter state: the IIR previous outputs and the
FIR ring buffers persist unchanged across a filter-kind change (they are
zeroed only by the constructor). -/
theorem filter_state_persists_across_kind_change (g : WaveformGenerator) (f : ℚ)
    (s : SpeedSettings) :
    (applySwap (updateSettings g f s)).synth = g.synth ∧
    (applySwap (configure g s)).synth = g.synth := by
  constructor <;> rfl

/-- The muted (inactive) output level of a mute relay pin:
`digitalWrite(pin, activeHigh ? LOW : HIGH)`. -/
def mutedLevel (g : GlobalSettings) : Bool := !g.relayActiveHigh

/-- The control-side state touched by error reporting: settings, the motor
state machine, the relay pins and bookkeeping, the sticky critical flag and
the UI error banner.  `nowMs` is the millisecond clock. -/
structure AppState where
  settings : GlobalSettings
  motorState : MotorState
  mutePins : Fin 4 → Bool
  standbyPin : Bool
  relaysActive : Bool
  relayStage : ℕ
  relayStageTime : ℕ
  powerOnDelayActive : Bool
  powerOnTime : ℕ
  criticalError : Bool
  showingError : Bool
  errorDuration : ℕ
  nowMs : ℕ

/-- MotorController::setRelays.  The power-on grace period forces mute; an
unmute only starts the staggered sequence (pins are raised later in
update()); a mute writes all four pins to the muted level at once. -/
def setRelays (st : AppState) (active : Bool) : AppState :=
  let p :=
    if st.powerOnDelayActive then
      (if st.nowMs - st.powerOnTime < st.settings.powerOnRelayDelay * 1000
        then (false, st)
        else (active, { st with powerOnDelayActive := false }))
    else (active, st)
  let act := p.1
  let st1 := p.2
  let st2 :=
    if act then
      { st1 with relaysActive := true, relayStage := 0, relayStageTime := st1.nowMs }
    else
      { st1 with
        relaysActive := false
        relayStage := 0
        mutePins := fun _ => !st1.settings.relayActiveHigh }
  if st2.settings.muteRelayLinkStandby then
    (if act then { st2 with standbyPin := st2.settings.relayActiveHigh } else st2)
  else st2

/-- UserInterface::showError: records the banner, then
`motor.setRelays(false)`. -/
def showError (st : AppState) (duration : ℕ) : AppState :=
  setRelays { st with showingError := true, errorDuration := duration } false

/-- ErrorHandler::report (serial print and file logging have no modelled
state).  The UI path — and with it the relay mute — runs only when
`errorDisplayEnabled` is set. -/
def report (st : AppState) (code : ℕ) (critical : Bool) : AppState :=
  let st1 := if critical then { st with criticalError := true } else st
  if st1.settings.errorDisplayEnabled then
    let d0 := st1.settings.errorDisplayDuration * 1000
    let d := if critical = true ∧ d0 < 10000 then 10000 else d0
    showError st1 d
  else st1

/-- A Running system with error display disabled, relays energised (all
four mute pins at the active level), past the power-on grace period. -/
def stC1 : AppState :=
  { settings := { setDefaults with errorDisplayEnabled := false }
    motorState := MotorState.running
    mutePins := fun _ => true
    standbyPin := true
    relaysActive := true
    relayStage := 4
    relayStageTime := 0
    powerOnDelayActive := false
    powerOnTime := 0
    criticalError := false
    showingError := false
    errorDuration := 0
    nowMs := 100000 }

/-- C1 counterexample: with error display disabled, a critical MotorStall
report leaves every mute relay output at its previous (active) level — the
mute only happens through the UI error path, which `report` skips. -/
theorem report_critical_no_display_counterexample :
    ¬ (∀ i : Fin 4,
        (report stC1 2 true).mutePins i = mutedLevel (report stC1 2 true).settings) := by
  intro h
  exact absurd (h 0) (by decide)

/-- C1 (amended): provided the error-display setting is enabled, reporting
an error (any kind; in particular a critical one, in any motor state)
synchronously drives all four mute relay outputs to the muted level through
the UI error path, the motor state machine stays in its current state, and
a critical report latches the sticky critical flag. -/
theorem showError_effects (st : AppState) (d : ℕ) :
    (∀ i : Fin 4, (showError st d).mutePins i = !st.settings.relayActiveHigh) ∧
    (showError st d).motorState = st.motorState ∧
    (showError st d).criticalError = st.criticalError ∧
    (showError st d).settings = st.settings := by
  unfold showError setRelays
  dsimp only
  split_ifs <;> first | exact ⟨fun i => rfl, rfl, rfl, rfl⟩ | simp_all

theorem report_critical_mutes_relays (st : AppState) (code : ℕ) (critical : Bool)
    (hed : st.settings.errorDisplayEnabled = true) :
    (∀ i : Fin 4, (report st code critical).mutePins i = mutedLevel st.settings) ∧
    (report st code critical).motorState = st.motorState ∧
    (critical = true → (report st code critical).criticalError = true) := by
  unfold report mutedLevel
  cases critical
  · dsimp only
    simp only [Bool.false_eq_true, if_false]
    split_ifs with h1 h2 <;>
      first
        | exact ⟨(showError_effects _ _).1, (showError_effects _ _).2.1,
            fun hc => by simp at hc⟩
        | exact absurd hed (by assumption)
  · dsimp only
    simp only [if_true]
    split_ifs with h1 h2 <;>
      first
        | (refine ⟨(showError_effects _ _).1, (showError_effects _ _).2.1, fun _ => ?_⟩
           rw [(showError_effects _ _).2.2.1])
        | exact absurd hed (by assumption)

theorem report_critical_mutes_relays_witness :
    ({ stC1 with settings := setDefaults } : AppState).settings.errorDisplayEnabled = true ∧
    ((∀ i : Fin 4, (report { stC1 with settings := setDefaults } 2 true).mutePins i
        = mutedLevel ({ stC1 with settings := setDefaults } : AppState).settings) ∧
     (report { stC1 with settings := setDefaults } 2 true).motorState
        = ({ stC1 with settings := setDefaults } : AppState).motorState ∧
     (true = true → (report { stC1 with settings := setDefaults } 2 true).criticalError = true)) :=
  ⟨rfl, report_critical_mutes_relays { stC1 with settings := setDefaults } 2 true rfl⟩

/-- Settings::getCurrentSpeedSettings, `_data.speeds[_data.currentSpeed]`.
An out-of-range enum value indexes out of bounds in the source (undefined);
the model wraps the index. -/
def currentSpeedSettings (g : GlobalSettings) : SpeedSettings :=
  g.speeds ⟨g.currentSpeed % 3, Nat.mod_lt _ (by norm_num)⟩

/-- The pitch/frequency derivation of the STATE_RUNNING branch of
MotorController::update: `target = base + base * (pitch / 100)`, published
to the DDS unmodified. -/
def runningTickTargetFreq (g : GlobalSettings) (pitchPercent : ℚ) : ℚ :=
  let baseFreq := (currentSpeedSettings g).frequency
  baseFreq + baseFreq * (pitchPercent / 100)

/-- MotorController::adjustPitchFreq: clamp the requested pitch offset in Hz
to ±(range% of base) and return the resulting pitch percentage. -/
def adjustPitchFreq (g : GlobalSettings) (pitchPercent : ℚ) (pitchRange : ℕ)
    (deltaHz : ℚ) : ℚ :=
  let baseFreq := (currentSpeedSettings g).frequency
  let currentPitchHz := baseFreq * (pitchPercent / 100)
  let newPitchHz := currentPitchHz + deltaHz
  let maxPitchHz := baseFreq * ((pitchRange : ℚ) / 100)
  let n1 := if maxPitchHz < newPitchHz then maxPitchHz else newPitchHz
  let n2 := if n1 < -maxPitchHz then -maxPitchHz else n1
  n2 / baseFreq * 100

/-- C4 counterexample: on the default (validated) 33 RPM profile
(min 40 ≤ nominal 50 ≤ max 60), pitch at the boundary of the 50 % range —
reachable through adjustPitchFreq — publishes 75 Hz, above max_freq = 60;
the Running tick never clamps to [min_freq, max_freq]. -/
theorem running_tick_freq_exceeds_max_counterexample :
    (currentSpeedSettings setDefaults).minFrequency
      ≤ (currentSpeedSettings setDefaults).frequency ∧
    (currentSpeedSettings setDefaults).frequency
      ≤ (currentSpeedSettings setDefaults).maxFrequency ∧
    adjustPitchFreq setDefaults 0 50 1000 = 50 ∧
    runningTickTargetFreq setDefaults 50 = 75 ∧
    ¬ (runningTickTargetFreq setDefaults 50
        ≤ (currentSpeedSettings setDefaults).maxFrequency) := by
  norm_num [runningTickTargetFreq, adjustPitchFreq, currentSpeedSettings, setDefaults,
    defaultSpeed33, Matrix.cons_val_zero]

/-- C4 (amended): every Running tick publishes exactly
nominal·(1 + pitch/100); with pitch held inside the configured ±range (as
adjustPitchFreq enforces) the result lies within nominal·(1 ± range/100),
but it is never clamped to the profile's [min_freq, max_freq]. -/
theorem running_tick_freq_formula (g : GlobalSettings) (pitch : ℚ) (range : ℕ)
    (hb : 0 ≤ (currentSpeedSettings g).frequency)
    (hp1 : -(range : ℚ) ≤ pitch) (hp2 : pitch ≤ range) :
    runningTickTargetFreq g pitch
      = (currentSpeedSettings g).frequency * (1 + pitch / 100) ∧
    (currentSpeedSettings g).frequency * (1 - (range : ℚ) / 100)
      ≤ runningTickTargetFreq g pitch ∧
    runningTickTargetFreq g pitch
      ≤ (currentSpeedSettings g).frequency * (1 + (range : ℚ) / 100) := by
  unfold runningTickTargetFreq
  dsimp only
  refine ⟨by ring, ?_, ?_⟩
  · nlinarith [mul_nonneg hb (show (0 : ℚ) ≤ pitch + range by linarith)]
  · nlinarith [mul_nonneg hb (show (0 : ℚ) ≤ (range : ℚ) - pitch by linarith)]

theorem running_tick_freq_formula_witness :
    (0 ≤ (currentSpeedSettings setDefaults).frequency ∧
     -((10 : ℕ) : ℚ) ≤ (10 : ℚ) ∧ (10 : ℚ) ≤ ((10 : ℕ) : ℚ)) ∧
    (runningTickTargetFreq setDefaults 10
      = (currentSpeedSettings setDefaults).frequency * (1 + (10 : ℚ) / 100) ∧
     (currentSpeedSettings setDefaults).frequency * (1 - ((10 : ℕ) : ℚ) / 100)
       ≤ runningTickTargetFreq setDefaults 10 ∧
     runningTickTargetFreq setDefaults 10
       ≤ (currentSpeedSettings setDefaults).frequency * (1 + ((10 : ℕ) : ℚ) / 100)) :=
  ⟨⟨by norm_num [currentSpeedSettings, setDefaults, defaultSpeed33, Matrix.cons_val_zero],
    by norm_num, by norm_num⟩,
   running_tick_freq_formula setDefaults 10 10
    (by norm_num [currentSpeedSettings, setDefaults, defaultSpeed33, Matrix.cons_val_zero])
    (by norm_num) (by norm_num)⟩

/-- The v2 on-disk layout (`GlobalSettingsV2` in settings.cpp): the current
layout without `freqDependentAmplitude` and `bootSpeed`. -/
structure GlobalSettingsV2 where
  schemaVersion : ℕ
  phaseMode : ℕ
  maxAmplitude : ℕ
  softStartCurve : ℕ
  smoothSwitching : Bool
  switchRampDuration : ℕ
  brakeMode : ℕ
  brakeDuration : ℚ
  brakePulseGap : ℚ
  brakeStartFreq : ℚ
  brakeStopFreq : ℚ
  relayActiveHigh : Bool
  muteRelayLinkStandby : Bool
  muteRelayLinkStartStop : Bool
  powerOnRelayDelay : ℕ
  displayBrightness : ℕ
  displaySleepDelay : ℕ
  screensaverEnabled : Bool
  autoDimDelay : ℕ
  showRuntime : Bool
  errorDisplayEnabled : Bool
  errorDisplayDuration : ℕ
  autoStandbyDelay : ℕ
  autoStart : Bool
  autoBoot : Bool
  pitchResetOnStop : Bool
  speeds : Fin 3 → SpeedSettings
  presetNames : Fin 5 → String
  totalRuntime : ℕ
  reverseEncoder : Bool
  pitchStepSize : ℚ
  rampType : ℕ
  screensaverMode : ℕ
  enable78rpm : Bool
  currentSpeed : ℕ

/-- The field-copy part of the `oldVersion == 2` branch of Settings::migrate:
setDefaults() first, then every v2 field assigned from the legacy struct
(the new fields keep their defaults: FDA 0, bootSpeed 3 = LastUsed). -/
def migrateFromV2 (v2 : GlobalSettingsV2) : GlobalSettings :=
  { setDefaults with
    phaseMode := v2.phaseMode
    maxAmplitude := v2.maxAmplitude
    softStartCurve := v2.softStartCurve
    smoothSwitching := v2.smoothSwitching
    switchRampDuration := v2.switchRampDuration
    brakeMode := v2.brakeMode
    brakeDuration := v2.brakeDuration
    brakePulseGap := v2.brakePulseGap
    brakeStartFreq := v2.brakeStartFreq
    brakeStopFreq := v2.brakeStopFreq
    relayActiveHigh := v2.relayActiveHigh
    muteRelayLinkStandby := v2.muteRelayLinkStandby
    muteRelayLinkStartStop := v2.muteRelayLinkStartStop
    powerOnRelayDelay := v2.powerOnRelayDelay
    displayBrightness := v2.displayBrightness
    displaySleepDelay := v2.displaySleepDelay
    screensaverEnabled := v2.screensaverEnabled
    autoDimDelay := v2.autoDimDelay
    showRuntime := v2.showRuntime
    errorDisplayEnabled := v2.errorDisplayEnabled
    errorDisplayDuration := v2.errorDisplayDuration
    autoStandbyDelay := v2.autoStandbyDelay
    autoStart := v2.autoStart
    autoBoot := v2.autoBoot
    pitchResetOnStop := v2.pitchResetOnStop
    speeds := v2.speeds
    presetNames := v2.presetNames
    totalRuntime := v2.totalRuntime
    reverseEncoder := v2.reverseEncoder
    pitchStepSize := v2.pitchStepSize
    rampType := v2.rampType
    screensaverMode := v2.screensaverMode
    enable78rpm := v2.enable78rpm
    currentSpeed := v2.currentSpeed }

/-- The bytes available when migrating a v2 settings file: either fewer than
sizeof(GlobalSettingsV2) (read fails) or a complete v2 struct. -/
inductive SettingsFileV2
  | short
  | full (v2 : GlobalSettingsV2)

/-- Settings::migrate for oldVersion = 2: setDefaults, read the legacy
layout, copy the shared fields and save.  Returns (success, in-memory
settings, file written by save()). -/
def migrate2 (f : SettingsFileV2) : Bool × GlobalSettings × Option GlobalSettings :=
  match f with
  | SettingsFileV2.short => (false, setDefaults, Option.none)
  | SettingsFileV2.full v2 => (true, migrateFromV2 v2, some (migrateFromV2 v2))

/-- C8: migrating any complete v2 blob succeeds, saves the migrated struct
as the new settings file, stamps schema version 4, defaults the new fields
(freq_dependent_amplitude = 0, boot_speed = 3 = LastUsed), and copies every
v2 payload field unchanged. -/
theorem migrate_v2_preserves_fields (v2 : GlobalSettingsV2) :
    (migrate2 (SettingsFileV2.full v2)).1 = true ∧
    (migrate2 (SettingsFileV2.full v2)).2.2 = some (migrate2 (SettingsFileV2.full v2)).2.1 ∧
    ((migrate2 (SettingsFileV2.full v2)).2.1.schemaVersion = 4 ∧
     (migrate2 (SettingsFileV2.full v2)).2.1.freqDependentAmplitude = 0 ∧
     (migrate2 (SettingsFileV2.full v2)).2.1.bootSpeed = 3) ∧
    ((migrate2 (SettingsFileV2.full v2)).2.1.phaseMode = v2.phaseMode ∧
     (migrate2 (SettingsFileV2.full v2)).2.1.maxAmplitude = v2.maxAmplitude ∧
     (migrate2 (SettingsFileV2.full v2)).2.1.softStartCurve = v2.softStartCurve ∧
     (migrate2 (SettingsFileV2.full v2)).2.1.smoothSwitching = v2.smoothSwitching ∧
     (migrate2 (SettingsFileV2.full v2)).2.1.switchRampDuration = v2.switchRampDuration ∧
     (migrate2 (SettingsFileV2.full v2)).2.1.brakeMode = v2.brakeMode ∧
     (migrate2 (SettingsFileV2.full v2)).2.1.brakeDuration = v2.brakeDuration ∧
     (migrate2 (SettingsFileV2.full v2)).2.1.brakePulseGap = v2.brakePulseGap ∧
     (migrate2 (SettingsFileV2.full v2)).2.1.brakeStartFreq = v2.brakeStartFreq ∧
     (migrate2 (SettingsFileV2.full v2)).2.1.brakeStopFreq = v2.brakeStopFreq ∧
     (migrate2 (SettingsFileV2.full v2)).2.1.relayActiveHigh = v2.relayActiveHigh ∧
     (migrate2 (SettingsFileV2.full v2)).2.1.muteRelayLinkStandby = v2.muteRelayLinkStandby ∧
     (migrate2 (SettingsFileV2.full v2)).2.1.muteRelayLinkStartStop = v2.muteRelayLinkStartStop ∧
     (migrate2 (SettingsFileV2.full v2)).2.1.powerOnRelayDelay = v2.powerOnRelayDelay ∧
     (migrate2 (SettingsFileV2.full v2)).2.1.displayBrightness = v2.displayBrightness ∧
     (migrate2 (SettingsFileV2.full v2)).2.1.displaySleepDelay = v2.displaySleepDelay ∧
     (migrate2 (SettingsFileV2.full v2)).2.1.screensaverEnabled = v2.screensaverEnabled ∧
     (migrate2 (SettingsFileV2.full v2)).2.1.autoDimDelay = v2.autoDimDelay ∧
     (migrate2 (SettingsFileV2.full v2)).2.1.showRuntime = v2.showRuntime ∧
     (migrate2 (SettingsFileV2.full v2)).2.1.errorDisplayEnabled = v2.errorDisplayEnabled ∧
     (migrate2 (SettingsFileV2.full v2)).2.1.errorDisplayDuration = v2.errorDisplayDuration ∧
     (migrate2 (SettingsFileV2.full v2)).2.1.autoStandbyDelay = v2.autoStandbyDelay ∧
     (migrate2 (SettingsFileV2.full v2)).2.1.autoStart = v2.autoStart ∧
     (migrate2 (SettingsFileV2.full v2)).2.1.autoBoot = v2.autoBoot ∧
     (migrate2 (SettingsFileV2.full v2)).2.1.pitchResetOnStop = v2.pitchResetOnStop ∧
     (migrate2 (SettingsFileV2.full v2)).2.1.speeds = v2.speeds ∧
     (migrate2 (SettingsFileV2.full v2)).2.1.presetNames = v2.presetNames ∧
     (migrate2 (SettingsFileV2.full v2)).2.1.totalRuntime = v2.totalRuntime ∧
     (migrate2 (SettingsFileV2.full v2)).2.1.reverseEncoder = v2.reverseEncoder ∧
     (migrate2 (SettingsFileV2.full v2)).2.1.pitchStepSize = v2.pitchStepSize ∧
     (migrate2 (SettingsFileV2.full v2)).2.1.rampType = v2.rampType ∧
     (migrate2 (SettingsFileV2.full v2)).2.1.screensaverMode = v2.screensaverMode ∧
     (migrate2 (SettingsFileV2.full v2)).2.1.enable78rpm = v2.enable78rpm ∧
     (migrate2 (SettingsFileV2.full v2)).2.1.currentSpeed = v2.currentSpeed) :=
  ⟨rfl, rfl, ⟨rfl, rfl, rfl⟩,
   rfl, rfl, rfl, rfl, rfl, rfl, rfl, rfl, rfl, rfl, rfl, rfl, rfl, rfl, rfl, rfl,
   rfl, rfl, rfl, rfl, rfl, rfl, rfl, rfl, rfl, rfl, rfl, rfl, rfl, rfl, rfl, rfl,
   rfl, rfl⟩

/-- The bytes available in a preset slot file: absent, shorter than
sizeof(GlobalSettings), or a complete struct. -/
inductive SlotFile
  | missing
  | short
  | full (g : GlobalSettings)

/-- Settings::loadFromSlot(slot, target): succeeds only when the file exists
and a full-size read succeeds. -/
def loadFromSlot (fs : ℕ → SlotFile) (slot : ℕ) : Option GlobalSettings :=
  match fs slot with
  | SlotFile.full g => some g
  | _ => Option.none

/-- Settings::loadPreset: reject slots ≥ MAX_PRESET_SLOTS (5), read into a
temporary, and only on success assign `_data = temp` and validate. -/
def loadPreset (fs : ℕ → SlotFile) (st : GlobalSettings) (slot : ℕ) :
    Bool × GlobalSettings :=
  if 5 ≤ slot then (false, st)
  else
    match loadFromSlot fs slot with
    | some t => (true, validate t)
    | Option.none => (false, st)

/-- C10: loadPreset is atomic on failure: an out-of-range slot, a missing
preset file, or a short read returns false and leaves the in-memory
settings untouched; whenever it returns false the settings are unchanged,
so they are mutated only on success. -/
theorem loadPreset_atomic_on_failure (fs : ℕ → SlotFile) (st : GlobalSettings)
    (slot : ℕ) :
    ((5 ≤ slot ∨ fs slot = SlotFile.missing ∨ fs slot = SlotFile.short) →
      loadPreset fs st slot = (false, st)) ∧
    ((loadPreset fs st slot).1 = false → (loadPreset fs st slot).2 = st) := by
  unfold loadPreset loadFromSlot
  split_ifs with h5
  · exact ⟨fun _ => rfl, fun _ => rfl⟩
  · cases hfs : fs slot with
    | missing => exact ⟨fun _ => rfl, fun _ => rfl⟩
    | short => exact ⟨fun _ => rfl, fun _ => rfl⟩
    | full t =>
      refine ⟨fun h => ?_, fun h => ?_⟩
      · rcases h with h | h | h
        · omega
        · simp at h
        · simp at h
      · simp at h

theorem loadPreset_atomic_on_failure_witness :
    loadPreset (fun _ => SlotFile.missing) setDefaults 7 = (false, setDefaults) ∧
    ((loadPreset (fun _ => SlotFile.missing) setDefaults 7).1 = false →
      (loadPreset (fun _ => SlotFile.missing) setDefaults 7).2 = setDefaults) :=
  ⟨(loadPreset_atomic_on_failure (fun _ => SlotFile.missing) setDefaults 7).1
      (Or.inl (by norm_num)),
   (loadPreset_atomic_on_failure (fun _ => SlotFile.missing) setDefaults 7).2⟩

end TTControl
